import Mathlib

/-!
Verification of the geozero event-streaming core against its specification.

The embedded code is `src/geozero-core-out/src/geojson.rs` (the reference
GeoJSON emitter, a `GeomReader` implementation writing to a `W: Write`
destination) and `src/geozero/src/lib.rs` (the `ProcessorSink` no-op
consumer).  Rust callbacks return `()` and `.unwrap()` every destination
write; a failed write therefore panics.  We model a callback as returning
`Option σ`: `some` is normal return, `none` is the `unwrap` panic.
-/

set_option maxRecDepth 4000

namespace Geozero

/-- A coordinate scalar: models an `f64` whose Rust `Display` output is a
plain decimal literal, given by an integer part `ip` and fraction digits
`fr`.  Rust prints an `f64` as the shortest decimal that round-trips; for
every value used in this development (0, 1, 2, 3, 0.2, 0.8) that shortest
decimal is exactly the one `Dec.render` produces. -/
structure Dec where
  ip : Nat
  fr : List Nat
deriving DecidableEq

/-- Rendering of a coordinate scalar, modelling Rust `Display` of `f64`
as used by `pointxy` via `format!`. -/
def Dec.render (d : Dec) : String :=
  toString d.ip ++ (if d.fr = [] then ("") else ("." ++ String.join (d.fr.map toString)))

/-- The `W: Write` capability of the destination: `write` either accepts
the bytes and yields the new destination state (`some`), or fails
(`none`, modelling `io::Result::Err`).  The emitted bytes are ASCII, so a
`String` stands for the byte slice. -/
structure Writer (σ : Type) where
  write : σ → String → Option σ

/-- `GeoJsonEmitter` from `geojson.rs`: it holds only (mutable access to)
its destination `out`; the `Write` capability of the destination type
travels with it. -/
structure GeoJsonEmitter (σ : Type) where
  w : Writer σ
  out : σ

/-- `self.out.write(b).unwrap()`: `none` is the panic of `unwrap`. -/
def GeoJsonEmitter.wr {σ : Type} (g : GeoJsonEmitter σ) (b : String) : Option (GeoJsonEmitter σ) :=
  (g.w.write g.out b).map fun o => GeoJsonEmitter.mk g.w o

/-- `fn comma(&mut self, idx: usize)`: writes `","` iff `idx > 0`. -/
def GeoJsonEmitter.comma {σ : Type} (g : GeoJsonEmitter σ) (idx : Nat) : Option (GeoJsonEmitter σ) :=
  if idx > 0 then g.wr (",") else some g

/-- `fn pointxy(&mut self, x: f64, y: f64, idx: usize)`. -/
def GeoJsonEmitter.pointxy {σ : Type} (g : GeoJsonEmitter σ) (x y : Dec) (idx : Nat) : Option (GeoJsonEmitter σ) := do
  let g2 ← g.comma idx
  g2.wr ("[" ++ x.render ++ "," ++ y.render ++ "]")

/-- `fn point_begin(&mut self, idx: usize)`. -/
def GeoJsonEmitter.point_begin {σ : Type} (g : GeoJsonEmitter σ) (idx : Nat) : Option (GeoJsonEmitter σ) := do
  let g2 ← g.comma idx
  g2.wr ("\x7b\"type\": \"Point\", \"coordinates\": ")

/-- `fn point_end(&mut self)` — takes no index. -/
def GeoJsonEmitter.point_end {σ : Type} (g : GeoJsonEmitter σ) : Option (GeoJsonEmitter σ) :=
  g.wr ("\x7d")

/-- `fn multipoint_begin(&mut self, _size: usize, idx: usize)`. -/
def GeoJsonEmitter.multipoint_begin {σ : Type} (g : GeoJsonEmitter σ) (_size idx : Nat) : Option (GeoJsonEmitter σ) := do
  let g2 ← g.comma idx
  g2.wr ("\x7b\"type\": \"MultiPoint\", \"coordinates\": [")

/-- `fn multipoint_end(&mut self)` — takes no index. -/
def GeoJsonEmitter.multipoint_end {σ : Type} (g : GeoJsonEmitter σ) : Option (GeoJsonEmitter σ) :=
  g.wr ("]\x7d")

/-- `fn line_begin(&mut self, _size: usize, idx: usize)`. -/
def GeoJsonEmitter.line_begin {σ : Type} (g : GeoJsonEmitter σ) (_size idx : Nat) : Option (GeoJsonEmitter σ) := do
  let g2 ← g.comma idx
  g2.wr ("\x7b\"type\": \"LineString\", \"coordinates\": [")

/-- `fn line_end(&mut self, _idx: usize)` — takes an index. -/
def GeoJsonEmitter.line_end {σ : Type} (g : GeoJsonEmitter σ) (_idx : Nat) : Option (GeoJsonEmitter σ) :=
  g.wr ("]\x7d")

/-- `fn multiline_begin(&mut self, _size: usize, idx: usize)`. -/
def GeoJsonEmitter.multiline_begin {σ : Type} (g : GeoJsonEmitter σ) (_size idx : Nat) : Option (GeoJsonEmitter σ) := do
  let g2 ← g.comma idx
  g2.wr ("\x7b\"type\": \"MultiLineString\", \"coordinates\": [")

/-- `fn multiline_end(&mut self)` — takes no index. -/
def GeoJsonEmitter.multiline_end {σ : Type} (g : GeoJsonEmitter σ) : Option (GeoJsonEmitter σ) :=
  g.wr ("]\x7d")

/-- `fn ring_begin(&mut self, _size: usize, idx: usize)`. -/
def GeoJsonEmitter.ring_begin {σ : Type} (g : GeoJsonEmitter σ) (_size idx : Nat) : Option (GeoJsonEmitter σ) := do
  let g2 ← g.comma idx
  g2.wr ("[")

/-- `fn ring_end(&mut self, _idx: usize)` — takes an index. -/
def GeoJsonEmitter.ring_end {σ : Type} (g : GeoJsonEmitter σ) (_idx : Nat) : Option (GeoJsonEmitter σ) :=
  g.wr ("]")

/-- `fn poly_begin(&mut self, _size: usize, idx: usize)`. -/
def GeoJsonEmitter.poly_begin {σ : Type} (g : GeoJsonEmitter σ) (_size idx : Nat) : Option (GeoJsonEmitter σ) := do
  let g2 ← g.comma idx
  g2.wr ("\x7b\"type\": \"Polygon\", \"coordinates\": [")

/-- `fn poly_end(&mut self, _idx: usize)` — the source writes only `"]"`,
not `"]\x7d"`. -/
def GeoJsonEmitter.poly_end {σ : Type} (g : GeoJsonEmitter σ) (_idx : Nat) : Option (GeoJsonEmitter σ) :=
  g.wr ("]")

/-- `fn subpoly_begin(&mut self, _size: usize, idx: usize)`. -/
def GeoJsonEmitter.subpoly_begin {σ : Type} (g : GeoJsonEmitter σ) (_size idx : Nat) : Option (GeoJsonEmitter σ) := do
  let g2 ← g.comma idx
  g2.wr ("[")

/-- `fn subpoly_end(&mut self, _idx: usize)` — takes an index. -/
def GeoJsonEmitter.subpoly_end {σ : Type} (g : GeoJsonEmitter σ) (_idx : Nat) : Option (GeoJsonEmitter σ) :=
  g.wr ("]")

/-- `fn multipoly_begin(&mut self, _size: usize, idx: usize)`. -/
def GeoJsonEmitter.multipoly_begin {σ : Type} (g : GeoJsonEmitter σ) (_size idx : Nat) : Option (GeoJsonEmitter σ) := do
  let g2 ← g.comma idx
  g2.wr ("\x7b\"type\": \"MultiPolygon\", \"coordinates\": [")

/-- `fn multipoly_end(&mut self)` — takes no index. -/
def GeoJsonEmitter.multipoly_end {σ : Type} (g : GeoJsonEmitter σ) : Option (GeoJsonEmitter σ) :=
  g.wr ("]\x7d")

/-- One callback of the `GeomReader` event protocol, with exactly the
argument lists of the trait methods as implemented in `geojson.rs`
(`_size` hints kept, end callbacks carrying an index only where the Rust
signature has one). -/
inductive Event where
  | pointxy (x y : Dec) (idx : Nat)
  | point_begin (idx : Nat)
  | point_end
  | multipoint_begin (size idx : Nat)
  | multipoint_end
  | line_begin (size idx : Nat)
  | line_end (idx : Nat)
  | multiline_begin (size idx : Nat)
  | multiline_end
  | ring_begin (size idx : Nat)
  | ring_end (idx : Nat)
  | poly_begin (size idx : Nat)
  | poly_end (idx : Nat)
  | subpoly_begin (size idx : Nat)
  | subpoly_end (idx : Nat)
  | multipoly_begin (size idx : Nat)
  | multipoly_end
deriving DecidableEq

/-- Dispatch one protocol event to the corresponding emitter callback. -/
def processEvent {σ : Type} (g : GeoJsonEmitter σ) : Event → Option (GeoJsonEmitter σ)
  | .pointxy x y i => g.pointxy x y i
  | .point_begin i => g.point_begin i
  | .point_end => g.point_end
  | .multipoint_begin s i => g.multipoint_begin s i
  | .multipoint_end => g.multipoint_end
  | .line_begin s i => g.line_begin s i
  | .line_end i => g.line_end i
  | .multiline_begin s i => g.multiline_begin s i
  | .multiline_end => g.multiline_end
  | .ring_begin s i => g.ring_begin s i
  | .ring_end i => g.ring_end i
  | .poly_begin s i => g.poly_begin s i
  | .poly_end i => g.poly_end i
  | .subpoly_begin s i => g.subpoly_begin s i
  | .subpoly_end i => g.subpoly_end i
  | .multipoly_begin s i => g.multipoly_begin s i
  | .multipoly_end => g.multipoly_end

/-- A traversal: the driver issues the events in order and stops at the
first failing callback (`none`). -/
def processEvents {σ : Type} (g : GeoJsonEmitter σ) : List Event → Option (GeoJsonEmitter σ)
  | [] => some g
  | e :: rest => (processEvent g e).bind fun g2 => processEvents g2 rest

/-- The always-succeeding destination: an in-memory buffer (`Vec<u8>` as
a `Write`), every write appends and succeeds. -/
def bufWriter : Writer String :=
  Writer.mk fun s b => some (s ++ b)

/-- A fresh emitter over a buffer destination holding `s`. -/
def bufEmitter (s : String) : GeoJsonEmitter String :=
  GeoJsonEmitter.mk bufWriter s

/-- The always-failing destination (e.g. a closed stream): every write
returns `Err`. -/
def failWriter : Writer Unit :=
  Writer.mk fun _ _ => none

/-- A fresh emitter over the always-failing destination. -/
def failEmitter : GeoJsonEmitter Unit :=
  GeoJsonEmitter.mk failWriter ()

/-- The bytes the emitter produces for an event sequence on a fresh
in-memory destination (`none` if some callback panicked). -/
def emitString (evs : List Event) : Option String :=
  (processEvents (bufEmitter ("")) evs).map GeoJsonEmitter.out

/-- The sibling index of a begin callback or coordinate callback — the
argument each of these passes to `comma`.  End callbacks yield `none`:
their bodies never call `comma`. -/
def eventIdx : Event → Option Nat
  | .pointxy _ _ i => some i
  | .point_begin i => some i
  | .point_end => none
  | .multipoint_begin _ i => some i
  | .multipoint_end => none
  | .line_begin _ i => some i
  | .line_end _ => none
  | .multiline_begin _ i => some i
  | .multiline_end => none
  | .ring_begin _ i => some i
  | .ring_end _ => none
  | .poly_begin _ i => some i
  | .poly_end _ => none
  | .subpoly_begin _ i => some i
  | .subpoly_end _ => none
  | .multipoly_begin _ i => some i
  | .multipoly_end => none

/-- The element's own output: the bytes a callback writes after the
optional separator comma. -/
def eventBody : Event → String
  | .pointxy x y _ => "[" ++ x.render ++ "," ++ y.render ++ "]"
  | .point_begin _ => "\x7b\"type\": \"Point\", \"coordinates\": "
  | .point_end => "\x7d"
  | .multipoint_begin _ _ => "\x7b\"type\": \"MultiPoint\", \"coordinates\": ["
  | .multipoint_end => "]\x7d"
  | .line_begin _ _ => "\x7b\"type\": \"LineString\", \"coordinates\": ["
  | .line_end _ => "]\x7d"
  | .multiline_begin _ _ => "\x7b\"type\": \"MultiLineString\", \"coordinates\": ["
  | .multiline_end => "]\x7d"
  | .ring_begin _ _ => "["
  | .ring_end _ => "]"
  | .poly_begin _ _ => "\x7b\"type\": \"Polygon\", \"coordinates\": ["
  | .poly_end _ => "]"
  | .subpoly_begin _ _ => "["
  | .subpoly_end _ => "]"
  | .multipoly_begin _ _ => "\x7b\"type\": \"MultiPolygon\", \"coordinates\": ["
  | .multipoly_end => "]\x7d"

/-- The separator written by `comma`. -/
def commaStr (i : Nat) : String :=
  if 0 < i then "," else ""

/-- The full bytes one callback writes to a succeeding destination. -/
def eventOutput (e : Event) : String :=
  (match eventIdx e with
   | some i => commaStr i
   | none => "") ++ eventBody e

/-- Whether an event is an end callback. -/
def isEndEvent : Event → Bool
  | .point_end => true
  | .multipoint_end => true
  | .line_end _ => true
  | .multiline_end => true
  | .ring_end _ => true
  | .poly_end _ => true
  | .subpoly_end _ => true
  | .multipoly_end => true
  | _ => false

/-- The index argument an end callback receives, read off the callback
signatures of `geojson.rs`: `none` for the end callbacks whose Rust
signature is `fn ..._end(&mut self)` with no index parameter. -/
def endIdx : Event → Option Nat
  | .point_end => none
  | .multipoint_end => none
  | .multiline_end => none
  | .multipoly_end => none
  | .line_end i => some i
  | .ring_end i => some i
  | .poly_end i => some i
  | .subpoly_end i => some i
  | _ => none

/-- `ProcessorSink` from `geozero/src/lib.rs`: a field-less struct. -/
structure ProcessorSink : Type where

/-- `ProcessorSink::new()`. -/
def ProcessorSink.new : ProcessorSink := ProcessorSink.mk

/-- Modelled from the spec: the trait definitions `FeatureProcessor`,
`GeomProcessor` and `PropertyProcessor` (files `feature_processor.rs`,
`geometry_processor.rs`, `property_processor.rs` of the `geozero` crate)
are not under src — `lib.rs` only declares the modules and the empty
`impl`s for `ProcessorSink`.  Per the spec the sink is "a consumer
implementing every protocol operation as a no-op".  A feature-level or
property-level protocol operation is abstracted by its name and (for a
property) the column name and value. -/
inductive SinkOp where
  | geom (e : Event)
  | feature (op : String) (idx : Nat)
  | property (idx : Nat) (colname : String) (colval : String)
deriving DecidableEq

/-- Modelled from the spec: the observable effect of one protocol
operation on a consumer — either a failure signal, or the consumer state
after the call together with the bytes the call wrote. -/
def SinkResult := Except String (ProcessorSink × String)

/-- Modelled from the spec: `ProcessorSink`'s `GeomProcessor`
implementation, every geometry operation left at its default no-op body. -/
def ProcessorSink.processGeom (s : ProcessorSink) : Event → SinkResult
  | .pointxy _ _ _ => Except.ok (s, "")
  | .point_begin _ => Except.ok (s, "")
  | .point_end => Except.ok (s, "")
  | .multipoint_begin _ _ => Except.ok (s, "")
  | .multipoint_end => Except.ok (s, "")
  | .line_begin _ _ => Except.ok (s, "")
  | .line_end _ => Except.ok (s, "")
  | .multiline_begin _ _ => Except.ok (s, "")
  | .multiline_end => Except.ok (s, "")
  | .ring_begin _ _ => Except.ok (s, "")
  | .ring_end _ => Except.ok (s, "")
  | .poly_begin _ _ => Except.ok (s, "")
  | .poly_end _ => Except.ok (s, "")
  | .subpoly_begin _ _ => Except.ok (s, "")
  | .subpoly_end _ => Except.ok (s, "")
  | .multipoly_begin _ _ => Except.ok (s, "")
  | .multipoly_end => Except.ok (s, "")

/-- Modelled from the spec: `ProcessorSink`'s combined protocol surface
(`FeatureProcessor`, `GeomProcessor`, `PropertyProcessor`), every
operation left at its default no-op body. -/
def ProcessorSink.process (s : ProcessorSink) : SinkOp → SinkResult
  | .geom e => s.processGeom e
  | .feature _ _ => Except.ok (s, "")
  | .property _ _ _ => Except.ok (s, "")

/-- Concatenation of the per-event outputs of an event sequence. -/
def concatOutputs : List Event → String
  | [] => ""
  | e :: rest => eventOutput e ++ concatOutputs rest

/-- The polygon traversal of spec scenario 1: exterior ring
(0,0),(1,0),(1,1),(0,0) and interior ring
(0.2,0.2),(0.8,0.2),(0.8,0.8),(0.2,0.2). -/
def c1Events : List Event :=
  [Event.poly_begin 2 0, Event.ring_begin 4 0,
   Event.pointxy (Dec.mk 0 []) (Dec.mk 0 []) 0, Event.pointxy (Dec.mk 1 []) (Dec.mk 0 []) 1,
   Event.pointxy (Dec.mk 1 []) (Dec.mk 1 []) 2, Event.pointxy (Dec.mk 0 []) (Dec.mk 0 []) 3,
   Event.ring_end 0, Event.ring_begin 4 1,
   Event.pointxy (Dec.mk 0 [2]) (Dec.mk 0 [2]) 0, Event.pointxy (Dec.mk 0 [8]) (Dec.mk 0 [2]) 1,
   Event.pointxy (Dec.mk 0 [8]) (Dec.mk 0 [8]) 2, Event.pointxy (Dec.mk 0 [2]) (Dec.mk 0 [2]) 3,
   Event.ring_end 1, Event.poly_end 0]

/-- The MultiPoint traversal of spec scenario 2: points (1,1),(2,2),(3,3)
at sibling indices 0,1,2. -/
def c3Events : List Event :=
  [Event.multipoint_begin 3 0,
   Event.pointxy (Dec.mk 1 []) (Dec.mk 1 []) 0,
   Event.pointxy (Dec.mk 2 []) (Dec.mk 2 []) 1,
   Event.pointxy (Dec.mk 3 []) (Dec.mk 3 []) 2,
   Event.multipoint_end]

/-! ## Helper lemmas -/

theorem wr_buf (s b : String) : (bufEmitter s).wr b = some (bufEmitter (s ++ b)) := rfl

theorem comma_buf (s : String) (i : Nat) :
    (bufEmitter s).comma i = some (bufEmitter (s ++ commaStr i)) := by
  by_cases h : 0 < i
  · simp [GeoJsonEmitter.comma, commaStr, h, wr_buf]
  · simp [GeoJsonEmitter.comma, commaStr, h]

theorem processEvent_buf (s : String) (e : Event) :
    processEvent (bufEmitter s) e = some (bufEmitter (s ++ eventOutput e)) := by
  cases e <;>
    simp [processEvent, GeoJsonEmitter.pointxy, GeoJsonEmitter.point_begin,
      GeoJsonEmitter.point_end, GeoJsonEmitter.multipoint_begin, GeoJsonEmitter.multipoint_end,
      GeoJsonEmitter.line_begin, GeoJsonEmitter.line_end, GeoJsonEmitter.multiline_begin,
      GeoJsonEmitter.multiline_end, GeoJsonEmitter.ring_begin, GeoJsonEmitter.ring_end,
      GeoJsonEmitter.poly_begin, GeoJsonEmitter.poly_end, GeoJsonEmitter.subpoly_begin,
      GeoJsonEmitter.subpoly_end, GeoJsonEmitter.multipoly_begin, GeoJsonEmitter.multipoly_end,
      comma_buf, wr_buf, eventOutput, eventIdx, eventBody, String.append_assoc]

theorem processEvents_buf (evs : List Event) (s : String) :
    processEvents (bufEmitter s) evs = some (bufEmitter (s ++ concatOutputs evs)) := by
  induction evs generalizing s with
  | nil => simp [processEvents, concatOutputs]
  | cons e rest ih =>
      simp [processEvents, processEvent_buf, concatOutputs, ih, String.append_assoc]

theorem emit_eq_concat (evs : List Event) : emitString evs = some (concatOutputs evs) := by
  unfold emitString
  rw [processEvents_buf]
  simp [bufEmitter]

theorem eventBody_head_ne (e : Event) : (eventBody e).data.head? ≠ some ',' := by
  cases e
  case pointxy x y i =>
    simp only [eventBody, String.append_assoc, String.data_append]
    simp only [List.singleton_append, List.head?_cons]
    decide
  all_goals (simp only [eventBody]; decide)

theorem eventBody_getLast_ne (e : Event) : (eventBody e).data.getLast? ≠ some ',' := by
  cases e
  case pointxy x y i =>
    simp only [eventBody, String.data_append]
    rw [List.getLast?_concat]
    decide
  all_goals (simp only [eventBody]; decide)

theorem wr_isSome {σ : Type} (g : GeoJsonEmitter σ) (hw : ∀ s b, ((g.w.write s b)).isSome)
    (b : String) : ((g.wr b)).isSome := by
  unfold GeoJsonEmitter.wr
  cases h : g.w.write g.out b with
  | none =>
      have hb := hw g.out b
      rw [h] at hb
      simp at hb
  | some o => simp

theorem wr_keeps_writer {σ : Type} (g : GeoJsonEmitter σ) (b : String) (g2 : GeoJsonEmitter σ)
    (h : g.wr b = some g2) : g2.w = g.w := by
  unfold GeoJsonEmitter.wr at h
  cases hw : g.w.write g.out b with
  | none => rw [hw] at h; simp at h
  | some o =>
      rw [hw] at h
      simp at h
      rw [← h]

theorem tokStep_isSome {σ : Type} (g : GeoJsonEmitter σ) (hw : ∀ s b, ((g.w.write s b)).isSome)
    (i : Nat) (b : String) :
    ((do
      let g2 ← g.comma i
      g2.wr b : Option (GeoJsonEmitter σ))).isSome := by
  show (((g.comma i)).bind fun g2 => g2.wr b).isSome
  unfold GeoJsonEmitter.comma
  by_cases hi : i > 0
  · rw [if_pos hi]
    obtain ⟨g1, hg1⟩ := Option.isSome_iff_exists.mp (wr_isSome g hw (","))
    rw [hg1, Option.some_bind]
    have hgw : g1.w = g.w := wr_keeps_writer g (",") g1 hg1
    exact wr_isSome g1 (by rw [hgw]; exact hw) b
  · rw [if_neg hi, Option.some_bind]
    exact wr_isSome g hw b

theorem tokStep_fail (i : Nat) (b : String) :
    ((do
      let g2 ← failEmitter.comma i
      g2.wr b : Option (GeoJsonEmitter Unit))) = none := by
  show (((failEmitter.comma i)).bind fun g2 => g2.wr b) = none
  unfold GeoJsonEmitter.comma
  by_cases hi : i > 0
  · rw [if_pos hi]; rfl
  · rw [if_neg hi]; rfl

/-! ## Claim theorems -/

/-- C1: the spec's polygon scenario (exterior ring (0,0),(1,0),(1,1),(0,0),
interior ring (0.2,0.2),(0.8,0.2),(0.8,0.8),(0.2,0.2)) requires the output
to end in `]]\x7d`, every end callback writing the closing token for what
its begin callback opened.  The code's `poly_begin` opens both the object
brace and the coordinates bracket, but `poly_end` writes only `"]"` —
unlike `multipoint_end`, `line_end`, `multiline_end` and `multipoly_end`,
which all write `"]\x7d"`.  Evaluating the emitter on the scenario shows the
actual output lacks the final closing brace. -/
theorem C1_polygon_missing_close :
    emitString c1Events
      = some ("\x7b\"type\": \"Polygon\", \"coordinates\": [[[0,0],[1,0],[1,1],[0,0]],[[0.2,0.2],[0.8,0.2],[0.8,0.8],[0.2,0.2]]]")
    ∧ emitString c1Events
      ≠ some ("\x7b\"type\": \"Polygon\", \"coordinates\": [[[0,0],[1,0],[1,1],[0,0]],[[0.2,0.2],[0.8,0.2],[0.8,0.8],[0.2,0.2]]]\x7d") := by
  constructor
  · decide
  · decide

/-- C2: for every begin callback and every coordinate callback (the
events carrying a sibling index that is passed to `comma`), the bytes
written are exactly one comma — present iff the index is positive —
followed by the element's own output; that output itself neither starts
nor ends with a comma, and nothing else is written on the element's
account. -/
theorem C2_separator_rule (s : String) (e : Event) (i : Nat) (h : eventIdx e = some i) :
    processEvent (bufEmitter s) e
      = some (bufEmitter (s ++ ((if 0 < i then "," else "") ++ eventBody e)))
    ∧ (eventBody e).data.head? ≠ some ','
    ∧ (eventBody e).data.getLast? ≠ some ',' := by
  refine ⟨?_, eventBody_head_ne e, eventBody_getLast_ne e⟩
  rw [processEvent_buf]
  have ho : eventOutput e = (if 0 < i then "," else "") ++ eventBody e := by
    simp [eventOutput, h, commaStr]
  rw [ho]

/-- Witness for C2: the coordinate callback `pointxy (1,2)` at sibling
index 5 writes a leading comma followed by `[1,2]`. -/
theorem C2_separator_rule_witness :
    eventIdx (Event.pointxy (Dec.mk 1 []) (Dec.mk 2 []) 5) = some 5
    ∧ (processEvent (bufEmitter ("")) (Event.pointxy (Dec.mk 1 []) (Dec.mk 2 []) 5)
        = some (bufEmitter (("") ++ ((if 0 < 5 then "," else "")
            ++ eventBody (Event.pointxy (Dec.mk 1 []) (Dec.mk 2 []) 5)))))
      ∧ (eventBody (Event.pointxy (Dec.mk 1 []) (Dec.mk 2 []) 5)).data.head? ≠ some ','
      ∧ (eventBody (Event.pointxy (Dec.mk 1 []) (Dec.mk 2 []) 5)).data.getLast? ≠ some ',' :=
  ⟨rfl, C2_separator_rule ("") (Event.pointxy (Dec.mk 1 []) (Dec.mk 2 []) 5) 5 rfl⟩

/-- C3: the MultiPoint traversal (points (1,1),(2,2),(3,3) at sibling
indices 0,1,2) produces exactly the expected GeoJSON bytes. -/
theorem C3_multipoint_scenario :
    emitString c3Events
      = some ("\x7b\"type\": \"MultiPoint\", \"coordinates\": [[1,1],[2,2],[3,3]]\x7d") := by
  decide

/-- C4: a single Point traversal — `point_begin` at index 0, one
`pointxy (x,y)` at index 0, `point_end` — writes exactly the Point
object with the two coordinates as decimal literals, with no leading or
trailing separator. -/
theorem C4_point_scenario (x y : Dec) :
    emitString [Event.point_begin 0, Event.pointxy x y 0, Event.point_end]
      = some ("\x7b\"type\": \"Point\", \"coordinates\": "
          ++ ("[" ++ x.render ++ "," ++ y.render ++ "]") ++ "\x7d") := by
  rw [emit_eq_concat]
  simp [concatOutputs, eventOutput, eventIdx, eventBody, commaStr, String.append_assoc]

/-- C5: every protocol operation invoked on `ProcessorSink` — across its
`FeatureProcessor`, `GeomProcessor` and `PropertyProcessor`
implementations — succeeds, writes nothing, and leaves the sink's state
unchanged. -/
theorem C5_sink_all_noop :
    ∀ (s : ProcessorSink) (op : SinkOp), ProcessorSink.process s op = Except.ok (s, "") := by
  intro s op
  cases op with
  | geom e => cases e <;> rfl
  | feature a b => rfl
  | property a b c => rfl

/-- C6 counterexample: with a destination whose write fails, the
`pointxy` callback does not return an error value to its caller — the
`GeomReader` callbacks return `()` and have no error channel; the
`.unwrap()` on the failed write panics, modelled by the `none` outcome.
The failure therefore crashes rather than being returned as an error. -/
theorem C6_write_failure_panics :
    processEvent failEmitter (Event.pointxy (Dec.mk 1 []) (Dec.mk 1 []) 0) = none := by
  rfl

/-- C6 amended: a write failure aborts the traversal immediately — once
a callback fails, the traversal's result is the failure and the events
after the failing one are never processed — but the failure mode is the
`unwrap` panic (`none`), not an error value returned to the caller. -/
theorem C6_failure_aborts_traversal {σ : Type} (g : GeoJsonEmitter σ) (e : Event)
    (rest : List Event) (h : processEvent g e = none) :
    processEvents g (e :: rest) = none := by
  simp [processEvents, h]

/-- Witness for the amended C6: a failing `point_end` aborts a traversal
that had one further event pending. -/
theorem C6_failure_aborts_traversal_witness :
    processEvent failEmitter Event.point_end = none
    ∧ processEvents failEmitter (Event.point_end :: [Event.point_begin 0]) = none :=
  ⟨rfl, C6_failure_aborts_traversal failEmitter Event.point_end [Event.point_begin 0] rfl⟩

/-- C7: the emitter's output is a deterministic function of the event
sequence alone: over any prior destination contents `s1`, `s2`, two runs
of the same events append the same bytes `concatOutputs evs`; two fresh
instances over fresh (empty) destinations therefore produce
byte-identical output, namely `concatOutputs evs`. -/
theorem C7_output_deterministic (evs : List Event) (s1 s2 : String) :
    (processEvents (bufEmitter s1) evs).map GeoJsonEmitter.out = some (s1 ++ concatOutputs evs)
    ∧ (processEvents (bufEmitter s2) evs).map GeoJsonEmitter.out = some (s2 ++ concatOutputs evs)
    ∧ emitString evs = some (concatOutputs evs) := by
  refine ⟨?_, ?_, emit_eq_concat evs⟩ <;> rw [processEvents_buf] <;> rfl

/-- C8 counterexample: `point_end` is an end callback of the protocol,
but its source signature `fn point_end(&mut self)` has no index
parameter, so it does not receive the sibling index on the end call —
contrary to the claim that every end callback does. -/
theorem C8_point_end_takes_no_index :
    isEndEvent Event.point_end = true ∧ endIdx Event.point_end = none :=
  ⟨rfl, rfl⟩

/-- C8 amended: among the end callbacks, only `line_end`, `ring_end`,
`poly_end` and `subpoly_end` receive the sibling index on the end call;
`point_end`, `multipoint_end`, `multiline_end` and `multipoly_end` take
no index argument at all. -/
theorem C8_end_index_signatures :
    (∀ i : Nat, isEndEvent (Event.line_end i) = true ∧ endIdx (Event.line_end i) = some i)
    ∧ (∀ i : Nat, isEndEvent (Event.ring_end i) = true ∧ endIdx (Event.ring_end i) = some i)
    ∧ (∀ i : Nat, isEndEvent (Event.poly_end i) = true ∧ endIdx (Event.poly_end i) = some i)
    ∧ (∀ i : Nat, isEndEvent (Event.subpoly_end i) = true ∧ endIdx (Event.subpoly_end i) = some i)
    ∧ (isEndEvent Event.multipoint_end = true ∧ endIdx Event.multipoint_end = none)
    ∧ (isEndEvent Event.multiline_end = true ∧ endIdx Event.multiline_end = none)
    ∧ (isEndEvent Event.multipoly_end = true ∧ endIdx Event.multipoly_end = none) :=
  ⟨fun _ => ⟨rfl, rfl⟩, fun _ => ⟨rfl, rfl⟩, fun _ => ⟨rfl, rfl⟩, fun _ => ⟨rfl, rfl⟩,
   ⟨rfl, rfl⟩, ⟨rfl, rfl⟩, ⟨rfl, rfl⟩⟩

/-- C9: every emitter callback unwraps its destination write.  If every
write on the destination succeeds, every callback returns normally (no
panic); with a destination whose writes fail, every callback panics
(`none`, the `unwrap` panic) instead of returning an error value. -/
theorem C9_unwrap_discipline :
    (∀ (σ : Type) (g : GeoJsonEmitter σ),
        (∀ s b, ((g.w.write s b)).isSome) → ∀ e : Event, ((processEvent g e)).isSome)
    ∧ (∀ e : Event, processEvent failEmitter e = none) := by
  constructor
  · intro σ g hw e
    cases e <;>
      first
        | exact tokStep_isSome g hw _ _
        | exact wr_isSome g hw _
  · intro e
    cases e <;>
      first
        | exact tokStep_fail _ _
        | rfl

/-- Witness for C9: the always-succeeding buffer destination satisfies
the premise, so `point_end` returns normally on it; on the failing
destination `point_end` panics. -/
theorem C9_unwrap_discipline_witness :
    (∀ s b, (((bufEmitter ("")).w.write s b)).isSome)
    ∧ ((processEvent (bufEmitter ("")) Event.point_end)).isSome
    ∧ processEvent failEmitter Event.point_end = none :=
  ⟨fun _ _ => rfl,
   C9_unwrap_discipline.1 String (bufEmitter ("")) (fun _ _ => rfl) Event.point_end,
   C9_unwrap_discipline.2 Event.point_end⟩

/-- C10: the emitter carries no state beyond its output handle: each
callback appends `eventOutput e`, a function of the event's identity and
arguments alone, and the total output of any traversal is the
concatenation of the per-event outputs. -/
theorem C10_emitter_homomorphism :
    (∀ (s : String) (e : Event),
        processEvent (bufEmitter s) e = some (bufEmitter (s ++ eventOutput e)))
    ∧ ∀ evs : List Event, emitString evs = some (concatOutputs evs) :=
  ⟨processEvent_buf, emit_eq_concat⟩

end Geozero
